import Mathlib

/-!
Shallow embedding of the maplibre-rs asynchronous tile pipeline slice:
the vector/raster tile pipelines (`src/maplibre/src/io/tile_pipelines.rs`)
and the request coordinator / dispatch procedure
(`src/maplibre/src/stages/request_stage.rs`).

External collaborators (byte decoder, tessellator, spatial indexer, event
sink, fetch client) are parameters of the model, exactly as the spec
declares them external with fixed interfaces.
-/

namespace Maplibre

/-- Tile column, row, zoom (`WorldTileCoords` in `coords.rs`); equality is the
deduplication key. -/
structure WorldTileCoords where
  x : Int
  y : Int
  z : Nat
deriving DecidableEq, Repr

/-- The `TileRequest`: coordinates plus the set of requested layer names
(a `HashSet<String>` in the source, embedded as a list; uniqueness is an
explicit `Nodup` hypothesis where a claim needs it). -/
structure TileRequest where
  coords : WorldTileCoords
  layers : List String
deriving DecidableEq, Repr

/-- One named layer of a decoded vector tile (`geozero::mvt::tile::Layer`);
the geometry payload is opaque to this slice and embedded as a number. -/
structure Layer where
  name : String
  geom : Nat
deriving DecidableEq, Repr

/-- A decoded vector tile (`geozero::mvt::Tile`): a sequence of named layers. -/
structure Tile where
  layers : List Layer
deriving DecidableEq, Repr

/-- The output representation of the vector/raster pipelines
(`PipelineTile` in `tile_pipelines.rs`). -/
inductive PipelineTile where
  | vector (t : Tile)
  | raster (image : Nat)
deriving DecidableEq, Repr

/-- Events pushed to the pipeline processor (the event sink of
`pipeline.rs` / `transferables`): buffers, geometry sets and images are
opaque and embedded as numbers. -/
inductive Event where
  | layerReady (coords : WorldTileCoords) (layerName : String) (buffers : Nat)
  | layerUnavailable (coords : WorldTileCoords) (layerName : String)
  | indexingFinished (coords : WorldTileCoords) (geometries : Nat)
  | layerRasterFinished (coords : WorldTileCoords) (name : String) (image : Nat)
  | tileFinished (coords : WorldTileCoords)
deriving DecidableEq, Repr

/-- Modelled from the spec: the external collaborators of the pipeline
(byte decoder, tessellator, spatial indexer, raster image decoder, event
sink), which live outside the provided sources and are declared external
interfaces in the spec. `decode` returning `none` is a protobuf decode
failure; `tess` returning `none` is a tessellation failure for that layer;
`indexLayerOk` is whether feeding a layer to the `IndexProcessor`
succeeds; `sinkOk e` is whether the processor call delivering `e`
succeeds (a sink call may fail, e.g. channel closed). -/
structure Collaborators where
  decode : List Nat → Option Tile
  tess : Layer → Option Nat
  indexLayerOk : Layer → Bool
  getGeometries : Tile → Nat
  decodeImage : List Nat → Option Nat
  sinkOk : Event → Bool

/-- Failure of a pipeline stage. In the embedded slice the only stage-level
error source is a failed processor (sink) call, which propagates via `?`. -/
inductive PipelineError where
  | sinkFailure (e : Event)
deriving DecidableEq, Repr

/-- Result of running embedded Rust code: normal return, returned error, or
panic (`expect` / `unwrap`). -/
inductive Outcome (ε α : Type) where
  | ok (a : α)
  | err (e : ε)
  | panic (msg : String)
deriving DecidableEq, Repr

/-- A stage computation returns the list of events it delivered to the sink
together with its outcome. -/
abbrev StageRes (α : Type) := List Event × Outcome PipelineError α

/-- Deliver one event to the sink: on success the event is recorded, on
failure the stage gets a `sinkFailure` error (the `?` in the source). -/
def emit (co : Collaborators) (e : Event) : StageRes Unit :=
  if co.sinkOk e then ([e], .ok ()) else ([], .err (.sinkFailure e))

/-- Sequencing of stage computations: events accumulate in order; an error
or panic aborts the rest (`DataPipeline` forwarding plus `?`). -/
def andThen {α β : Type} : StageRes α → (α → StageRes β) → StageRes β
  | (es, .ok a), f =>
    let (es2, r) := f a
    (es ++ es2, r)
  | (es, .err e), _ => (es, .err e)
  | (es, .panic m), _ => (es, .panic m)

/-- Stage `ParseTile::process`: decodes the raw bytes as a vector tile; a decode
failure hits `.expect("failed to load tile")`, i.e. panics. -/
def ParseTile.process (co : Collaborators) (input : TileRequest × List Nat) :
    StageRes (TileRequest × Tile) :=
  match co.decode input.2 with
  | some tile => ([], .ok (input.1, tile))
  | none => ([], .panic "failed to load tile")

/-- The layer loop of `TessellateLayer::process`: for each tile layer whose
name is requested, tessellate; emit `layer_tesselation_finished` on success
or `layer_unavailable` on tessellation failure, then continue. -/
def tessLoop (co : Collaborators) (req : TileRequest) : List Layer → StageRes Unit
  | [] => ([], .ok ())
  | layer :: rest =>
    if req.layers.contains layer.name then
      andThen
        (match co.tess layer with
         | some buf => emit co (.layerReady req.coords layer.name buf)
         | none => emit co (.layerUnavailable req.coords layer.name))
        (fun _ => tessLoop co req rest)
    else tessLoop co req rest

/-- Stage `TessellateLayer::process`. -/
def TessellateLayer.process (co : Collaborators) (input : TileRequest × Tile) :
    StageRes (TileRequest × Tile) :=
  andThen (tessLoop co input.1 input.2.layers) (fun _ => ([], .ok input))

/-- The loop of `TessellateLayerUnavailable::process`: emit
`layer_unavailable` for every requested name not among the tile's layer
names (`difference` of the two sets). -/
def unavailLoop (co : Collaborators) (coords : WorldTileCoords)
    (avail : List String) : List String → StageRes Unit
  | [] => ([], .ok ())
  | n :: rest =>
    if avail.contains n then unavailLoop co coords avail rest
    else
      andThen (emit co (.layerUnavailable coords n))
        (fun _ => unavailLoop co coords avail rest)

/-- Stage `TessellateLayerUnavailable::process`. -/
def TessellateLayerUnavailable.process (co : Collaborators)
    (input : TileRequest × Tile) : StageRes (TileRequest × Tile) :=
  andThen
    (unavailLoop co input.1.coords (input.2.layers.map Layer.name)
      input.1.layers)
    (fun _ => ([], .ok input))

/-- Stage `IndexLayer::process`: feeds every layer to the `IndexProcessor`
(`.unwrap()`, so a failure panics), then emits `indexing_finished` with the
collected geometries. -/
def IndexLayer.process (co : Collaborators) (input : TileRequest × Tile) :
    StageRes (TileRequest × PipelineTile) :=
  if input.2.layers.all co.indexLayerOk then
    andThen
      (emit co (.indexingFinished input.1.coords (co.getGeometries input.2)))
      (fun _ => ([], .ok (input.1, .vector input.2)))
  else ([], .panic "unwrap on Err")

/-- Stage `TileFinished::process`: emits `tile_finished` for the coordinates. -/
def TileFinished.process (co : Collaborators)
    (input : TileRequest × PipelineTile) : StageRes (TileRequest × PipelineTile) :=
  andThen (emit co (.tileFinished input.1.coords)) (fun _ => ([], .ok input))

/-- Function `build_vector_tile_pipeline` applied to one input: the stage chain in
the order the source composes it — `ParseTile`, `TessellateLayer`,
`TessellateLayerUnavailable`, `IndexLayer`, `TileFinished`, `PipelineEnd`. -/
def runVectorPipeline (co : Collaborators) (req : TileRequest)
    (data : List Nat) : StageRes (TileRequest × PipelineTile) :=
  andThen (ParseTile.process co (req, data)) (fun a =>
    andThen (TessellateLayer.process co a) (fun b =>
      andThen (TessellateLayerUnavailable.process co b) (fun c =>
        andThen (IndexLayer.process co c) (fun d =>
          TileFinished.process co d))))

/-- Stage `RasterLayer::process`: `image::load_from_memory(..).unwrap()` (panic on
a malformed image), then emit `layer_raster_finished`. -/
def RasterLayer.process (co : Collaborators) (input : TileRequest × List Nat) :
    StageRes (TileRequest × PipelineTile) :=
  match co.decodeImage input.2 with
  | some img =>
    andThen (emit co (.layerRasterFinished input.1.coords "raster" img))
      (fun _ => ([], .ok (input.1, .raster img)))
  | none => ([], .panic "unwrap on Err")

/-- Function `build_raster_tile_pipeline` applied to one input: `RasterLayer` then
`TileFinished`. -/
def runRasterPipeline (co : Collaborators) (req : TileRequest)
    (data : List Nat) : StageRes (TileRequest × PipelineTile) :=
  andThen (RasterLayer.process co (req, data)) (fun a =>
    TileFinished.process co a)

/-- Modelled from the spec: the dispatcher input enum (`Input` in
`io/apc.rs`, not among the provided sources). The procedure only accepts
the `TileRequest` variant; `notRender` stands for every other variant. -/
inductive Input where
  | tileRequest (req : TileRequest)
  | notRender
deriving DecidableEq, Repr

/-- Errors of the async procedure (`ProcedureError` in `io/apc.rs`):
incompatible input, wrapped pipeline execution error, or a failed message
send (the event whose delivery failed). -/
inductive ProcedureError where
  | incompatibleInput
  | execution (e : PipelineError)
  | send (e : Event)
deriving DecidableEq, Repr

/-- Observable behaviour of one `schedule` invocation: which coordinates
were fetched, which messages were delivered, and the returned outcome. -/
structure ScheduleResult where
  fetched : List WorldTileCoords
  trace : List Event
  result : Outcome ProcedureError Unit
deriving DecidableEq, Repr

/-- The fetch-failure loop of `schedule`: for every layer name of the
request send `Message::LayerUnavailable`; a failed send aborts with
`ProcedureError::Send` (the `?`). -/
def sendLoop (co : Collaborators) (coords : WorldTileCoords) :
    List String → List Event × Outcome ProcedureError Unit
  | [] => ([], .ok ())
  | n :: rest =>
    let e := Event.layerUnavailable coords n
    if co.sinkOk e then
      let (es, r) := sendLoop co coords rest
      (e :: es, r)
    else ([], .err (.send e))

/-- Procedure `schedule` in `request_stage.rs` (the default, vector build): reject a
non-`TileRequest` input with `IncompatibleInput`; otherwise fetch; on fetch
success run the vector pipeline, wrapping a pipeline error as
`ProcedureError::Execution`; on fetch failure send `layer_unavailable` for
every requested layer without running the pipeline. -/
def schedule (fetch : WorldTileCoords → Option (List Nat))
    (co : Collaborators) (input : Input) : ScheduleResult :=
  match input with
  | .notRender => ⟨[], [], .err .incompatibleInput⟩
  | .tileRequest req =>
    match fetch req.coords with
    | some data =>
      let (es, r) := runVectorPipeline co req data
      ⟨[req.coords], es,
        match r with
        | .ok _ => .ok ()
        | .err e => .err (.execution e)
        | .panic m => .panic m⟩
    | none =>
      let (es, r) := sendLoop co req.coords req.layers
      ⟨[req.coords], es, r⟩

/-- Modelled from the spec: the tile repository (`io/tile_repository.rs`,
not among the provided sources). Per the spec it tracks one entry per
coordinate; `has_tile` is membership and `create_tile` inserts without
deduplicating. The embedding keeps the entries as a list of coordinates. -/
abbrev TileRepository := List WorldTileCoords

/-- Modelled from the spec: `TileRepository::has_tile` — true once an entry
for the coordinates exists. -/
def has_tile (repo : TileRepository) (coords : WorldTileCoords) : Bool :=
  repo.contains coords

/-- Modelled from the spec: `TileRepository::create_tile` — inserts a new
entry; it does not deduplicate on insert. -/
def create_tile (repo : TileRepository) (coords : WorldTileCoords) :
    TileRepository :=
  repo ++ [coords]

/-- A style layer: optionally names a source layer (`style.rs`, used only
through `layer.source_layer`). -/
structure StyleLayer where
  source_layer : Option String
deriving DecidableEq, Repr

/-- The style: a read-only list of layers. -/
structure Style where
  layers : List StyleLayer
deriving DecidableEq, Repr

/-- Function `RequestStage::request_tile`, exactly as the source writes it: the
request is issued when `has_tile` returns TRUE — it creates the repository
entry and submits `Input::TileRequest` to the dispatcher — and nothing
happens otherwise. Returns the new repository and the submitted calls. -/
def request_tile (repo : TileRepository) (coords : WorldTileCoords)
    (layers : List String) : TileRepository × List Input :=
  if has_tile repo coords then
    (create_tile repo coords, [Input.tileRequest ⟨coords, layers⟩])
  else (repo, [])

/-- Function `RequestStage::request_tiles_in_view`: collect the style's source-layer
names (a `HashSet`, embedded as a deduplicated list), then for every
coordinate of the view region whose `build_quad_key()` is `Some`, run
`request_tile`. `hasQuadKey` embeds `WorldTileCoords::build_quad_key`
(`coords.rs`, external to the provided sources). -/
def request_tiles_in_view (hasQuadKey : WorldTileCoords → Bool)
    (style : Style) (repo : TileRepository)
    (viewRegion : List WorldTileCoords) : TileRepository × List Input :=
  viewRegion.foldl
    (fun acc coords =>
      if hasQuadKey coords then
        let r := request_tile acc.1 coords
          ((style.layers.filterMap StyleLayer.source_layer).dedup)
        (r.1, acc.2 ++ r.2)
      else acc)
    (repo, [])

/-- Modelled from the spec: the view state flags and region the coordinator
reads (`view_state` lives outside the provided sources). `region` is
`create_view_region()`; the two flags are `did_camera_change()` and
`did_zoom_change()`. -/
structure ViewState where
  cameraChanged : Bool
  zoomChanged : Bool
  region : Option (List WorldTileCoords)
deriving DecidableEq, Repr

/-- Function `RequestStage::run` (one coordinator pass): if the camera or the zoom
changed and a view region exists, request the tiles in view; otherwise
leave the repository alone and submit nothing. -/
def RequestStage.run (hasQuadKey : WorldTileCoords → Bool) (style : Style)
    (vs : ViewState) (repo : TileRepository) : TileRepository × List Input :=
  if vs.cameraChanged || vs.zoomChanged then
    match vs.region with
    | some region => request_tiles_in_view hasQuadKey style repo region
    | none => (repo, [])
  else (repo, [])

/-! ### Derived descriptions of the traces -/

/-- The events the tessellation stage emits: one outcome per tile layer
whose name is requested — `layerReady` if tessellation succeeds,
`layerUnavailable` if it fails. -/
def tessEvents (co : Collaborators) (req : TileRequest)
    (layers : List Layer) : List Event :=
  (layers.filter (fun l => req.layers.contains l.name)).map (fun l =>
    match co.tess l with
    | some buf => Event.layerReady req.coords l.name buf
    | none => Event.layerUnavailable req.coords l.name)

/-- The events the reconcile stage emits: `layerUnavailable` for every
requested name not among the available layer names. -/
def unavailEvents (coords : WorldTileCoords) (avail : List String)
    (names : List String) : List Event :=
  (names.filter (fun n => !(avail.contains n))).map
    (Event.layerUnavailable coords)

/-- The full event trace of a successful vector-pipeline run. -/
def vectorTrace (co : Collaborators) (req : TileRequest) (tile : Tile) :
    List Event :=
  tessEvents co req tile.layers ++
    unavailEvents req.coords (tile.layers.map Layer.name) req.layers ++
    [Event.indexingFinished req.coords (co.getGeometries tile),
     Event.tileFinished req.coords]

/-- Whether an event is a per-layer outcome (`layerReady` or
`layerUnavailable`). -/
def isLayerOutcome : Event → Bool
  | .layerReady _ _ _ => true
  | .layerUnavailable _ _ => true
  | _ => false

/-- Whether an event is `indexingFinished`. -/
def isIndexingFin : Event → Bool
  | .indexingFinished _ _ => true
  | _ => false

/-- The ordering property claimed of a trace: every `indexingFinished`
event comes before every per-layer outcome event. -/
def indexingBeforeLayerEvents (tr : List Event) : Prop :=
  ∀ i j : Fin tr.length,
    isIndexingFin tr[i] → isLayerOutcome tr[j] → (i : Nat) < (j : Nat)

instance (tr : List Event) : Decidable (indexingBeforeLayerEvents tr) := by
  unfold indexingBeforeLayerEvents; infer_instance

/-- How many per-layer outcome events for layer name `n` a trace holds. -/
def outcomeCountFor (n : String) (tr : List Event) : Nat :=
  tr.countP (fun e =>
    match e with
    | .layerReady _ m _ => m == n
    | .layerUnavailable _ m => m == n
    | _ => false)

/-- How many times a trace holds the exact event `e`. -/
def eventCount (e : Event) (tr : List Event) : Nat :=
  tr.countP (fun x => decide (x = e))

/-- Whether an outcome is a returned error value (as opposed to a normal
return or a panic). -/
def isErrOutcome {ε α : Type} : Outcome ε α → Bool
  | .err _ => true
  | _ => false

/-- Running the vector pipeline twice on the same (request, bytes) pair,
each run with a fresh pipeline context: the two event traces. -/
def runVectorPipelineTwice (co : Collaborators) (req : TileRequest)
    (data : List Nat) : List Event × List Event :=
  ((runVectorPipeline co req data).1, (runVectorPipeline co req data).1)

/-! ### Concrete fixtures -/

/-- The spec scenario's coordinates: column 2, row 3, zoom 4. -/
def coordsScenario : WorldTileCoords := ⟨2, 3, 4⟩

/-- Coordinates used for coordinator evaluations. -/
def coordsOrigin : WorldTileCoords := ⟨0, 0, 1⟩

/-- A decoded tile holding exactly one layer, named water. -/
def waterTile : Tile := ⟨[⟨"water", 0⟩]⟩

/-- Scenario collaborators: every payload decodes to `waterTile`, every
tessellation and indexing step succeeds, every sink call succeeds. -/
def scenarioCollab : Collaborators :=
  { decode := fun _ => some waterTile,
    tess := fun _ => some 0,
    indexLayerOk := fun _ => true,
    getGeometries := fun _ => 0,
    decodeImage := fun _ => some 0,
    sinkOk := fun _ => true }

/-- The scenario request: the water and roads layers at the scenario
coordinates. -/
def scenarioReq : TileRequest := ⟨coordsScenario, ["water", "roads"]⟩

/-- Collaborators whose byte decoders (vector and raster) reject every
payload — the malformed-payload situation. -/
def failCollab : Collaborators :=
  { decode := fun _ => none,
    tess := fun _ => some 0,
    indexLayerOk := fun _ => true,
    getGeometries := fun _ => 0,
    decodeImage := fun _ => none,
    sinkOk := fun _ => true }

/-- A style with a single layer drawing from the water source layer. -/
def styleWater : Style := ⟨[⟨some "water"⟩]⟩

/-! ### Trace lemmas under an all-accepting sink -/

theorem tessLoop_eq (co : Collaborators) (req : TileRequest)
    (hsink : ∀ e, co.sinkOk e = true) :
    ∀ layers : List Layer,
      tessLoop co req layers = (tessEvents co req layers, .ok ()) := by
  intro layers
  induction layers with
  | nil => rfl
  | cons l rest ih =>
    by_cases hmem : l.name ∈ req.layers
    · cases htess : co.tess l <;>
        simp [tessLoop, tessEvents, hmem, htess, emit, hsink, andThen, ih,
          tessEvents]
    · simp [tessLoop, tessEvents, hmem, ih]

theorem unavailLoop_eq (co : Collaborators) (coords : WorldTileCoords)
    (avail : List String) (hsink : ∀ e, co.sinkOk e = true) :
    ∀ names : List String,
      unavailLoop co coords avail names =
        (unavailEvents coords avail names, .ok ()) := by
  intro names
  induction names with
  | nil => rfl
  | cons n rest ih =>
    by_cases hmem : n ∈ avail
    · simp [unavailLoop, unavailEvents, hmem, ih]
    · simp [unavailLoop, unavailEvents, hmem, ih, emit, hsink, andThen]

theorem runVectorPipeline_eq (co : Collaborators) (req : TileRequest)
    (data : List Nat) (tile : Tile) (hdec : co.decode data = some tile)
    (hsink : ∀ e, co.sinkOk e = true)
    (hidx : ∀ l, co.indexLayerOk l = true) :
    runVectorPipeline co req data =
      (vectorTrace co req tile, .ok (req, .vector tile)) := by
  have hall : ∀ l ∈ tile.layers, co.indexLayerOk l = true := fun l _ => hidx l
  simp [runVectorPipeline, ParseTile.process, hdec, andThen,
    TessellateLayer.process, tessLoop_eq co req hsink,
    TessellateLayerUnavailable.process, unavailLoop_eq co req.coords _ hsink,
    IndexLayer.process, hall, TileFinished.process, emit, hsink,
    vectorTrace]
  rw [if_pos hall]
  simp

theorem sendLoop_eq (co : Collaborators) (coords : WorldTileCoords)
    (hsink : ∀ e, co.sinkOk e = true) :
    ∀ names : List String,
      sendLoop co coords names =
        (names.map (Event.layerUnavailable coords), .ok ()) := by
  intro names
  induction names with
  | nil => rfl
  | cons n rest ih => simp [sendLoop, hsink, ih]

/-! ### Counting helpers -/

theorem countP_beq_eq_one {α : Type} [BEq α] [LawfulBEq α] {a : α} :
    ∀ {l : List α}, l.Nodup → a ∈ l → l.countP (fun x => x == a) = 1 := by
  intro l
  induction l with
  | nil => intro _ h; cases h
  | cons m rest ih =>
    intro hnd hmem
    rw [List.countP_cons]
    rcases List.mem_cons.mp hmem with rfl | hmem2
    · have hzero : rest.countP (fun x => x == a) = 0 := by
        apply List.countP_eq_zero.mpr
        intro b hb hcon
        exact (List.nodup_cons.mp hnd).1 ((eq_of_beq hcon) ▸ hb)
      simp [hzero]
    · have hne : m ≠ a := fun h => (List.nodup_cons.mp hnd).1 (h ▸ hmem2)
      simp [ih (List.nodup_cons.mp hnd).2 hmem2, hne]

theorem countP_beq_eq_zero {α : Type} [BEq α] [LawfulBEq α] {a : α}
    {l : List α} (h : a ∉ l) : l.countP (fun x => x == a) = 0 := by
  apply List.countP_eq_zero.mpr
  intro b hb hcon
  exact h ((eq_of_beq hcon) ▸ hb)

theorem outcomeCountFor_tessEvents (co : Collaborators) (req : TileRequest)
    (n : String) (layers : List Layer) (hn : n ∈ req.layers) :
    outcomeCountFor n (tessEvents co req layers) =
      layers.countP (fun l => l.name == n) := by
  unfold outcomeCountFor tessEvents
  rw [List.countP_map, List.countP_filter]
  apply List.countP_congr
  intro l _
  by_cases hname : l.name = n
  · cases htess : co.tess l <;>
      simp [Function.comp, htess, hname, hn]
  · cases htess : co.tess l <;>
      simp [Function.comp, htess, hname]

theorem outcomeCountFor_unavailEvents (coords : WorldTileCoords) (n : String)
    (avail names : List String) :
    outcomeCountFor n (unavailEvents coords avail names) =
      if n ∈ avail then 0 else names.countP (fun m => m == n) := by
  unfold outcomeCountFor unavailEvents
  rw [List.countP_map, List.countP_filter]
  by_cases hn : n ∈ avail
  · rw [if_pos hn]
    apply List.countP_eq_zero.mpr
    intro m _ hcon
    simp [Function.comp] at hcon
    exact absurd (hcon.1 ▸ hn) (by simpa using hcon.2)
  · rw [if_neg hn]
    apply List.countP_congr
    intro m _
    by_cases hm : m = n
    · simp [Function.comp, hm, hn]
    · simp [Function.comp, hm]

theorem mem_tessEvents_layerOutcome (co : Collaborators) (req : TileRequest)
    (layers : List Layer) : ∀ e ∈ tessEvents co req layers,
      isLayerOutcome e = true := by
  intro e he
  unfold tessEvents at he
  obtain ⟨l, -, hl⟩ := List.mem_map.mp he
  cases htess : co.tess l <;> rw [htess] at hl <;> simp [← hl, isLayerOutcome]

theorem mem_unavailEvents_layerOutcome (coords : WorldTileCoords)
    (avail names : List String) : ∀ e ∈ unavailEvents coords avail names,
      isLayerOutcome e = true := by
  intro e he
  unfold unavailEvents at he
  obtain ⟨m, -, hl⟩ := List.mem_map.mp he
  simp [← hl, isLayerOutcome]

theorem eventCount_eq_zero_of_layerOutcome {tr : List Event}
    (h : ∀ x ∈ tr, isLayerOutcome x = true) (c : WorldTileCoords) :
    eventCount (Event.tileFinished c) tr = 0 := by
  apply List.countP_eq_zero.mpr
  intro a ha hcon
  have : a = Event.tileFinished c := by simpa using hcon
  rw [this] at ha
  simpa [isLayerOutcome] using h _ ha

theorem eventCount_tileFinished_vectorTrace (co : Collaborators)
    (req : TileRequest) (tile : Tile) :
    eventCount (Event.tileFinished req.coords) (vectorTrace co req tile) = 1 := by
  unfold vectorTrace
  unfold eventCount
  rw [List.countP_append, List.countP_append]
  have h1 := eventCount_eq_zero_of_layerOutcome
    (mem_tessEvents_layerOutcome co req tile.layers) req.coords
  have h2 := eventCount_eq_zero_of_layerOutcome
    (mem_unavailEvents_layerOutcome req.coords (tile.layers.map Layer.name)
      req.layers) req.coords
  unfold eventCount at h1 h2
  rw [h1, h2]
  simp [List.countP_cons]

theorem outcomeCountFor_vectorTrace (co : Collaborators) (req : TileRequest)
    (tile : Tile) (n : String) (hn : n ∈ req.layers)
    (hnd : req.layers.Nodup) (htn : (tile.layers.map Layer.name).Nodup) :
    outcomeCountFor n (vectorTrace co req tile) = 1 := by
  unfold vectorTrace outcomeCountFor
  rw [List.countP_append, List.countP_append]
  have htess := outcomeCountFor_tessEvents co req n tile.layers hn
  have hunav := outcomeCountFor_unavailEvents req.coords n
    (tile.layers.map Layer.name) req.layers
  unfold outcomeCountFor at htess hunav
  rw [htess, hunav]
  have hcomp : tile.layers.countP (fun l => l.name == n) =
      (tile.layers.map Layer.name).countP (fun m => m == n) := by
    rw [List.countP_map]; rfl
  by_cases hmem : n ∈ tile.layers.map Layer.name
  · rw [if_pos hmem, hcomp, countP_beq_eq_one htn hmem]
    simp [List.countP_cons]
  · rw [if_neg hmem, hcomp, countP_beq_eq_zero hmem, countP_beq_eq_one hnd hn]
    simp [List.countP_cons]

/-! ### Claim theorems -/

/-- C1: the claim says a coordinator pass creates an entry and submits a
request exactly for the in-view coordinates with a valid quad key that are
NOT yet in the repository. The code's guard is inverted
(`if tile_repository.has_tile(&coords)`): evaluating the coordinator shows
that with an empty repository a visible quad-keyed coordinate gets neither
an entry nor a request, while a coordinate already present is re-inserted
(duplicate entry) and re-submitted. -/
theorem c1_inverted_dedup_eval :
    RequestStage.run (fun _ => true) styleWater
        ⟨true, false, some [coordsOrigin]⟩ [] = ([], []) ∧
    RequestStage.run (fun _ => true) styleWater
        ⟨true, false, some [coordsOrigin]⟩ [coordsOrigin] =
      ([coordsOrigin, coordsOrigin],
       [Input.tileRequest ⟨coordsOrigin, ["water"]⟩]) := by
  constructor <;> rfl

/-- C2 counterexample: in the spec's own scenario — request for (2,3,z=4)
with layers water and roads, payload decoding to a water-only tile, water
tessellating successfully — the run emits layer_ready(water) and
layer_unavailable(roads) BEFORE indexing_finished, refuting the claimed
order (indexing_finished before any per-layer event). -/
theorem c2_counterexample :
    (runVectorPipeline scenarioCollab scenarioReq [0]).1 =
      [Event.layerReady coordsScenario "water" 0,
       Event.layerUnavailable coordsScenario "roads",
       Event.indexingFinished coordsScenario 0,
       Event.tileFinished coordsScenario] ∧
    ¬ indexingBeforeLayerEvents
        (runVectorPipeline scenarioCollab scenarioReq [0]).1 := by
  constructor
  · rfl
  · decide

/-- C2 (amended): the vector pipeline runs decode, tessellate, reconcile,
index, finalize in that order; so on a successful run every layer_ready /
layer_unavailable event precedes the run's indexing_finished event, and
tile_finished is emitted last. -/
theorem c2_stage_order_amended (co : Collaborators) (req : TileRequest)
    (data : List Nat) (tile : Tile) (hdec : co.decode data = some tile)
    (hsink : ∀ e, co.sinkOk e = true)
    (hidx : ∀ l, co.indexLayerOk l = true) :
    ∃ L, (runVectorPipeline co req data).1 =
        L ++ [Event.indexingFinished req.coords (co.getGeometries tile),
              Event.tileFinished req.coords] ∧
      ∀ e ∈ L, isLayerOutcome e = true := by
  rw [runVectorPipeline_eq co req data tile hdec hsink hidx]
  refine ⟨tessEvents co req tile.layers ++
      unavailEvents req.coords (tile.layers.map Layer.name) req.layers,
    ?_, ?_⟩
  · simp [vectorTrace]
  · intro e he
    rcases List.mem_append.mp he with h | h
    · exact mem_tessEvents_layerOutcome co req tile.layers e h
    · exact mem_unavailEvents_layerOutcome req.coords _ req.layers e h

/-- Witness for the amended C2 at the scenario input. -/
theorem c2_stage_order_amended_witness :
    scenarioCollab.decode [0] = some waterTile ∧
    (∀ e, scenarioCollab.sinkOk e = true) ∧
    (∀ l, scenarioCollab.indexLayerOk l = true) ∧
    ∃ L, (runVectorPipeline scenarioCollab scenarioReq [0]).1 =
        L ++ [Event.indexingFinished scenarioReq.coords
                (scenarioCollab.getGeometries waterTile),
              Event.tileFinished scenarioReq.coords] ∧
      ∀ e ∈ L, isLayerOutcome e = true :=
  ⟨rfl, fun _ => rfl, fun _ => rfl,
    c2_stage_order_amended scenarioCollab scenarioReq [0] waterTile rfl
      (fun _ => rfl) (fun _ => rfl)⟩

/-- C3 counterexample: on a payload the decoder rejects, the vector run is
a panic (the `expect` in `ParseTile::process`), not a returned error — and
likewise the raster run (the `unwrap` in `RasterLayer::process`). So the
decode failure is a crash, not a returned `DecodeError`. -/
theorem c3_counterexample :
    runVectorPipeline failCollab scenarioReq [0] =
      ([], .panic "failed to load tile") ∧
    isErrOutcome (runVectorPipeline failCollab scenarioReq [0]).2 = false ∧
    runRasterPipeline failCollab scenarioReq [0] =
      ([], .panic "unwrap on Err") ∧
    isErrOutcome (runRasterPipeline failCollab scenarioReq [0]).2 = false :=
  ⟨rfl, rfl, rfl, rfl⟩

/-- C3 (amended): a payload the expected-format decoder rejects makes the
decode step panic (crashing that run), with no events emitted and no error
value returned — in both the vector and the raster pipeline. -/
theorem c3_decode_panic_amended (co : Collaborators) (req : TileRequest)
    (data : List Nat) (h1 : co.decode data = none)
    (h2 : co.decodeImage data = none) :
    runVectorPipeline co req data = ([], .panic "failed to load tile") ∧
    runRasterPipeline co req data = ([], .panic "unwrap on Err") := by
  constructor
  · simp [runVectorPipeline, ParseTile.process, h1, andThen]
  · simp [runRasterPipeline, RasterLayer.process, h2, andThen]

/-- Witness for the amended C3 at a concrete malformed payload. -/
theorem c3_decode_panic_amended_witness :
    failCollab.decode [0] = none ∧ failCollab.decodeImage [0] = none ∧
    (runVectorPipeline failCollab scenarioReq [0] =
        ([], .panic "failed to load tile") ∧
      runRasterPipeline failCollab scenarioReq [0] =
        ([], .panic "unwrap on Err")) :=
  ⟨rfl, rfl, c3_decode_panic_amended failCollab scenarioReq [0] rfl rfl⟩

/-- C4: when the fetch for a tile request fails, the pipeline is not run;
the delivered messages are exactly one layer_unavailable per requested
layer name (in particular each name gets exactly one), no tile_finished is
emitted, and the procedure returns success. -/
theorem c4_fetch_failure_outcomes (fetch : WorldTileCoords → Option (List Nat))
    (co : Collaborators) (req : TileRequest)
    (hf : fetch req.coords = none) (hsink : ∀ e, co.sinkOk e = true)
    (hnd : req.layers.Nodup) :
    (schedule fetch co (.tileRequest req)).trace =
        req.layers.map (Event.layerUnavailable req.coords) ∧
    (∀ n ∈ req.layers,
      eventCount (Event.layerUnavailable req.coords n)
        (schedule fetch co (.tileRequest req)).trace = 1) ∧
    (∀ c, eventCount (Event.tileFinished c)
        (schedule fetch co (.tileRequest req)).trace = 0) ∧
    (schedule fetch co (.tileRequest req)).result = .ok () := by
  have hsched : schedule fetch co (.tileRequest req) =
      ⟨[req.coords], req.layers.map (Event.layerUnavailable req.coords),
        .ok ()⟩ := by
    simp [schedule, hf, sendLoop_eq co req.coords hsink]
  rw [hsched]
  refine ⟨rfl, ?_, ?_, rfl⟩
  · intro n hn
    unfold eventCount
    rw [List.countP_map]
    have hcongr : req.layers.countP
        ((fun x => decide (x = Event.layerUnavailable req.coords n)) ∘
          Event.layerUnavailable req.coords) =
        req.layers.countP (fun m => m == n) := by
      apply List.countP_congr
      intro m _
      simp [Function.comp]
    rw [hcongr, countP_beq_eq_one hnd hn]
  · intro c
    unfold eventCount
    apply List.countP_eq_zero.mpr
    intro a ha hcon
    obtain ⟨m, -, rfl⟩ := List.mem_map.mp ha
    simp at hcon

/-- Witness for C4: fetch fails for a two-layer request. -/
theorem c4_fetch_failure_outcomes_witness :
    (fun (_ : WorldTileCoords) => (none : Option (List Nat)))
        scenarioReq.coords = none ∧
    (∀ e, scenarioCollab.sinkOk e = true) ∧
    scenarioReq.layers.Nodup ∧
    ((schedule (fun _ => none) scenarioCollab (.tileRequest scenarioReq)).trace =
        scenarioReq.layers.map (Event.layerUnavailable scenarioReq.coords) ∧
      (∀ n ∈ scenarioReq.layers,
        eventCount (Event.layerUnavailable scenarioReq.coords n)
          (schedule (fun _ => none) scenarioCollab
            (.tileRequest scenarioReq)).trace = 1) ∧
      (∀ c, eventCount (Event.tileFinished c)
          (schedule (fun _ => none) scenarioCollab
            (.tileRequest scenarioReq)).trace = 0) ∧
      (schedule (fun _ => none) scenarioCollab
          (.tileRequest scenarioReq)).result = .ok ()) :=
  ⟨rfl, fun _ => rfl, by decide,
    c4_fetch_failure_outcomes (fun _ => none) scenarioCollab scenarioReq rfl
      (fun _ => rfl) (by decide)⟩

/-- C5: on a successful decode with an all-accepting sink, every requested
layer name receives exactly one per-layer outcome event in the run, and
that outcome follows the source's rule: a requested layer present in the
decoded tile gets layer_ready carrying its tessellation buffers when
tessellation succeeds and layer_unavailable when it fails, a requested
name absent from the decoded tile gets layer_unavailable, and the
reconcile stage emits layer_unavailable exactly for the requested names
absent from the decoded tile's layer names. -/
theorem c5_layer_outcomes (co : Collaborators) (req : TileRequest)
    (data : List Nat) (tile : Tile) (hdec : co.decode data = some tile)
    (hsink : ∀ e, co.sinkOk e = true)
    (hidx : ∀ l, co.indexLayerOk l = true)
    (hnd : req.layers.Nodup) (htn : (tile.layers.map Layer.name).Nodup) :
    (∀ n ∈ req.layers,
      outcomeCountFor n (runVectorPipeline co req data).1 = 1) ∧
    (∀ l ∈ tile.layers, l.name ∈ req.layers →
      (∀ buf, co.tess l = some buf →
        Event.layerReady req.coords l.name buf ∈
          (runVectorPipeline co req data).1) ∧
      (co.tess l = none →
        Event.layerUnavailable req.coords l.name ∈
          (runVectorPipeline co req data).1)) ∧
    (∀ n ∈ req.layers, n ∉ tile.layers.map Layer.name →
      Event.layerUnavailable req.coords n ∈
        (runVectorPipeline co req data).1) ∧
    (∀ n : String,
      Event.layerUnavailable req.coords n ∈
          (TessellateLayerUnavailable.process co (req, tile)).1 ↔
        n ∈ req.layers ∧ n ∉ tile.layers.map Layer.name) := by
  refine ⟨?_, ?_, ?_, ?_⟩
  · intro n hn
    rw [runVectorPipeline_eq co req data tile hdec hsink hidx]
    exact outcomeCountFor_vectorTrace co req tile n hn hnd htn
  · intro l hl hreq
    rw [runVectorPipeline_eq co req data tile hdec hsink hidx]
    constructor
    · intro buf hbuf
      unfold vectorTrace
      apply List.mem_append.mpr
      left
      apply List.mem_append.mpr
      left
      unfold tessEvents
      exact List.mem_map.mpr
        ⟨l, List.mem_filter.mpr ⟨hl, by simpa using hreq⟩, by rw [hbuf]⟩
    · intro hfail
      unfold vectorTrace
      apply List.mem_append.mpr
      left
      apply List.mem_append.mpr
      left
      unfold tessEvents
      exact List.mem_map.mpr
        ⟨l, List.mem_filter.mpr ⟨hl, by simpa using hreq⟩, by rw [hfail]⟩
  · intro n hn habs
    rw [runVectorPipeline_eq co req data tile hdec hsink hidx]
    unfold vectorTrace
    apply List.mem_append.mpr
    left
    apply List.mem_append.mpr
    right
    unfold unavailEvents
    exact List.mem_map.mpr
      ⟨n, List.mem_filter.mpr ⟨hn, by simpa using habs⟩, rfl⟩
  · intro n
    have hstage : (TessellateLayerUnavailable.process co (req, tile)).1 =
        unavailEvents req.coords (tile.layers.map Layer.name) req.layers := by
      simp [TessellateLayerUnavailable.process,
        unavailLoop_eq co req.coords _ hsink, andThen]
    rw [hstage]
    unfold unavailEvents
    constructor
    · intro hmem
      obtain ⟨m, hm, heq⟩ := List.mem_map.mp hmem
      obtain ⟨hm1, hm2⟩ := List.mem_filter.mp hm
      have hmn : m = n := by
        injection heq with _ h
      subst hmn
      exact ⟨hm1, by simpa using hm2⟩
    · rintro ⟨h1, h2⟩
      exact List.mem_map.mpr
        ⟨n, List.mem_filter.mpr ⟨h1, by simpa using h2⟩, rfl⟩

/-- Witness for C5 at the scenario input (water decoded, roads missing). -/
theorem c5_layer_outcomes_witness :
    scenarioCollab.decode [0] = some waterTile ∧
    (∀ e, scenarioCollab.sinkOk e = true) ∧
    (∀ l, scenarioCollab.indexLayerOk l = true) ∧
    scenarioReq.layers.Nodup ∧
    (waterTile.layers.map Layer.name).Nodup ∧
    ((∀ n ∈ scenarioReq.layers,
        outcomeCountFor n
          (runVectorPipeline scenarioCollab scenarioReq [0]).1 = 1) ∧
      (∀ l ∈ waterTile.layers, l.name ∈ scenarioReq.layers →
        (∀ buf, scenarioCollab.tess l = some buf →
          Event.layerReady scenarioReq.coords l.name buf ∈
            (runVectorPipeline scenarioCollab scenarioReq [0]).1) ∧
        (scenarioCollab.tess l = none →
          Event.layerUnavailable scenarioReq.coords l.name ∈
            (runVectorPipeline scenarioCollab scenarioReq [0]).1)) ∧
      (∀ n ∈ scenarioReq.layers, n ∉ waterTile.layers.map Layer.name →
        Event.layerUnavailable scenarioReq.coords n ∈
          (runVectorPipeline scenarioCollab scenarioReq [0]).1) ∧
      (∀ n : String,
        Event.layerUnavailable scenarioReq.coords n ∈
            (TessellateLayerUnavailable.process scenarioCollab
              (scenarioReq, waterTile)).1 ↔
          n ∈ scenarioReq.layers ∧
            n ∉ waterTile.layers.map Layer.name)) :=
  ⟨rfl, fun _ => rfl, fun _ => rfl, by decide, by decide,
    c5_layer_outcomes scenarioCollab scenarioReq [0] waterTile rfl
      (fun _ => rfl) (fun _ => rfl) (by decide) (by decide)⟩

/-- C6: a successful decode with an all-accepting sink produces exactly one
tile_finished event for the request's coordinates; in particular a tile
whose decoded layer set is empty still yields the full trace of one
layer_unavailable per requested layer followed by indexing_finished and
tile_finished. -/
theorem c6_tile_finished_once (co : Collaborators) (req : TileRequest)
    (data : List Nat) (tile : Tile) (hdec : co.decode data = some tile)
    (hsink : ∀ e, co.sinkOk e = true)
    (hidx : ∀ l, co.indexLayerOk l = true) :
    eventCount (Event.tileFinished req.coords)
        (runVectorPipeline co req data).1 = 1 ∧
    (tile.layers = [] →
      (runVectorPipeline co req data).1 =
        req.layers.map (Event.layerUnavailable req.coords) ++
          [Event.indexingFinished req.coords (co.getGeometries tile),
           Event.tileFinished req.coords]) := by
  rw [runVectorPipeline_eq co req data tile hdec hsink hidx]
  constructor
  · exact eventCount_tileFinished_vectorTrace co req tile
  · intro hempty
    simp [vectorTrace, tessEvents, unavailEvents, hempty]

/-- Witness for C6 at a request whose payload decodes to an empty tile. -/
theorem c6_tile_finished_once_witness :
    (fun (_ : List Nat) => some (Tile.mk [])) [0] = some (Tile.mk []) ∧
    (eventCount (Event.tileFinished scenarioReq.coords)
        (runVectorPipeline
          { scenarioCollab with decode := fun _ => some (Tile.mk []) }
          scenarioReq [0]).1 = 1 ∧
      ((Tile.mk []).layers = [] →
        (runVectorPipeline
            { scenarioCollab with decode := fun _ => some (Tile.mk []) }
            scenarioReq [0]).1 =
          scenarioReq.layers.map
              (Event.layerUnavailable scenarioReq.coords) ++
            [Event.indexingFinished scenarioReq.coords
              (({ scenarioCollab with
                  decode := fun _ => some (Tile.mk []) } :
                    Collaborators).getGeometries (Tile.mk [])),
             Event.tileFinished scenarioReq.coords])) :=
  ⟨rfl,
    c6_tile_finished_once
      { scenarioCollab with decode := fun _ => some (Tile.mk []) }
      scenarioReq [0] (Tile.mk []) rfl (fun _ => rfl) (fun _ => rfl)⟩

/-- C7: a layer whose tessellation fails gets a layer_unavailable event and
the run continues: the pipeline still returns success, tile_finished is
still emitted exactly once, and every other requested layer still receives
exactly one per-layer outcome event. -/
theorem c7_tessellation_failure_isolated (co : Collaborators)
    (req : TileRequest) (data : List Nat) (tile : Tile) (L : Layer)
    (hdec : co.decode data = some tile)
    (hsink : ∀ e, co.sinkOk e = true)
    (hidx : ∀ l, co.indexLayerOk l = true)
    (hnd : req.layers.Nodup) (htn : (tile.layers.map Layer.name).Nodup)
    (hmemL : L ∈ tile.layers) (hreqL : L.name ∈ req.layers)
    (hfail : co.tess L = none) :
    (runVectorPipeline co req data).2 = .ok (req, .vector tile) ∧
    Event.layerUnavailable req.coords L.name ∈
      (runVectorPipeline co req data).1 ∧
    eventCount (Event.tileFinished req.coords)
        (runVectorPipeline co req data).1 = 1 ∧
    (∀ n ∈ req.layers, n ≠ L.name →
      outcomeCountFor n (runVectorPipeline co req data).1 = 1) := by
  rw [runVectorPipeline_eq co req data tile hdec hsink hidx]
  refine ⟨rfl, ?_, eventCount_tileFinished_vectorTrace co req tile, ?_⟩
  · unfold vectorTrace
    apply List.mem_append.mpr
    left
    apply List.mem_append.mpr
    left
    unfold tessEvents
    apply List.mem_map.mpr
    refine ⟨L, List.mem_filter.mpr ⟨hmemL, by simpa using hreqL⟩, ?_⟩
    rw [hfail]
  · intro n hn _
    exact outcomeCountFor_vectorTrace co req tile n hn hnd htn

/-- Witness for C7: the water layer's tessellation fails; the run still
succeeds and the roads layer still gets its single outcome. -/
theorem c7_tessellation_failure_isolated_witness :
    ({ scenarioCollab with tess := fun _ => none } :
        Collaborators).decode [0] = some waterTile ∧
    Layer.mk "water" 0 ∈ waterTile.layers ∧
    (Layer.mk "water" 0).name ∈ scenarioReq.layers ∧
    ({ scenarioCollab with tess := fun _ => none } :
        Collaborators).tess (Layer.mk "water" 0) = none ∧
    ((runVectorPipeline { scenarioCollab with tess := fun _ => none }
        scenarioReq [0]).2 = .ok (scenarioReq, .vector waterTile) ∧
      Event.layerUnavailable scenarioReq.coords (Layer.mk "water" 0).name ∈
        (runVectorPipeline { scenarioCollab with tess := fun _ => none }
          scenarioReq [0]).1 ∧
      eventCount (Event.tileFinished scenarioReq.coords)
          (runVectorPipeline { scenarioCollab with tess := fun _ => none }
            scenarioReq [0]).1 = 1 ∧
      (∀ n ∈ scenarioReq.layers, n ≠ (Layer.mk "water" 0).name →
        outcomeCountFor n
          (runVectorPipeline { scenarioCollab with tess := fun _ => none }
            scenarioReq [0]).1 = 1)) :=
  ⟨rfl, by decide, by decide, rfl,
    c7_tessellation_failure_isolated
      { scenarioCollab with tess := fun _ => none } scenarioReq [0]
      waterTile (Layer.mk "water" 0) rfl (fun _ => rfl) (fun _ => rfl)
      (by decide) (by decide) (by decide) (by decide) rfl⟩

/-- C8: the event sequence of a pipeline run is a function of the request
and the payload bytes alone (the fixed external collaborators included):
two runs of `build_vector_tile_pipeline` on the identical input, each with
a fresh pipeline context, produce identical, order-preserving traces. -/
theorem c8_deterministic (co : Collaborators) (req : TileRequest)
    (data : List Nat) :
    (runVectorPipelineTwice co req data).1 =
      (runVectorPipelineTwice co req data).2 := rfl

/-- C9: a coordinator pass on a static camera (no camera change, no zoom
change) leaves the tile repository unchanged and submits nothing to the
dispatcher. -/
theorem c9_static_camera_no_work (hqk : WorldTileCoords → Bool)
    (style : Style) (vs : ViewState) (repo : TileRepository)
    (hc : vs.cameraChanged = false) (hz : vs.zoomChanged = false) :
    RequestStage.run hqk style vs repo = (repo, []) := by
  simp [RequestStage.run, hc, hz]

/-- Witness for C9 at a concrete static view state. -/
theorem c9_static_camera_no_work_witness :
    (ViewState.mk false false (some [coordsOrigin])).cameraChanged = false ∧
    (ViewState.mk false false (some [coordsOrigin])).zoomChanged = false ∧
    RequestStage.run (fun _ => true) styleWater
        (ViewState.mk false false (some [coordsOrigin])) [coordsOrigin] =
      ([coordsOrigin], []) :=
  ⟨rfl, rfl,
    c9_static_camera_no_work (fun _ => true) styleWater
      (ViewState.mk false false (some [coordsOrigin])) [coordsOrigin] rfl rfl⟩

/-- C10: `schedule` on any input that is not the `TileRequest` variant
returns `ProcedureError::IncompatibleInput` with no fetch performed, no
pipeline run and no message sent. -/
theorem c10_incompatible_input (fetch : WorldTileCoords → Option (List Nat))
    (co : Collaborators) (input : Input)
    (h : ∀ r, input ≠ Input.tileRequest r) :
    schedule fetch co input = ⟨[], [], .err .incompatibleInput⟩ := by
  cases input with
  | tileRequest r => exact absurd rfl (h r)
  | notRender => rfl

/-- Witness for C10 at the concrete non-TileRequest input. -/
theorem c10_incompatible_input_witness :
    (∀ r, Input.notRender ≠ Input.tileRequest r) ∧
    schedule (fun _ => none) scenarioCollab Input.notRender =
      ⟨[], [], .err .incompatibleInput⟩ :=
  ⟨fun _ h => Input.noConfusion h,
    c10_incompatible_input (fun _ => none) scenarioCollab Input.notRender
      (fun _ h => Input.noConfusion h)⟩

end Maplibre
